import Mathlib

/-!
Shallow embedding of the statement-extraction heuristics of
`extract_no_llm.py` and of the decryption boundary of
`scripts/decrypt_pdf.py`, together with theorems settling the frozen
claims about them.  Python strings are Lean `String`s, `None`-able
values are `Option`s, and Python exceptions are modelled with `Except`.
The decimal numbers produced by the numeric regexes are represented
exactly as un-normalized mantissa/scale pairs (`PyFloat`), with
`PyFloat.toRat` giving their rational value; this models Python's
`float()` parsing of those decimal strings exactly (no binary rounding,
which no claim is about).
-/

deriving instance DecidableEq for Except

/-- Python exceptions that the embedded code can raise. -/
inductive PyErr where
  | valueError
  | indexError
deriving DecidableEq, Repr

/-- The six ASCII characters matched by Python's `\s` (and stripped by
`str.strip()`) on the ASCII inputs handled here. -/
def isPyWs (c : Char) : Bool :=
  c = ' ' || c = '\t' || c = '\n' || c = '\r' || c = '\x0b' || c = '\x0c'

/-- ASCII lower-casing of a string, models `str.lower()` on ASCII text. -/
def lowerStr (s : String) : String := ⟨s.data.map Char.toLower⟩

/-- ASCII upper-casing of a string, models `str.upper()` on ASCII text. -/
def upperStr (s : String) : String := ⟨s.data.map Char.toUpper⟩

/-- Models `str.strip()`: drop whitespace from both ends. -/
def pyStrip (s : String) : String :=
  ⟨((s.data.dropWhile isPyWs).reverse.dropWhile isPyWs).reverse⟩

/-- Models `s.replace(',', '')` at the character-list level. -/
def stripCommasL (cs : List Char) : List Char := cs.filter (· ≠ ',')

/-- Models `s.replace(',', '')`. -/
def stripCommas (s : String) : String := ⟨stripCommasL s.data⟩

/-- Models `s.replace('$', '')`. -/
def stripDollar (s : String) : String := ⟨s.data.filter (· ≠ '$')⟩

/-- Boolean prefix test on character lists (kernel-computable
replacement for `String.startsWith`). -/
def isPrefL : List Char → List Char → Bool
  | [], _ => true
  | _ :: _, [] => false
  | p :: ps, c :: cs => p = c && isPrefL ps cs

/-- Boolean substring test: models Python's `pat in s` for strings. -/
def isSubL (p : List Char) : List Char → Bool
  | [] => isPrefL p []
  | c :: rest => isPrefL p (c :: rest) || isSubL p rest

/-- The numeric value of a list of ASCII digits, most significant first. -/
def natOfDigits (cs : List Char) : Nat :=
  cs.foldl (fun n c => 10 * n + (c.toNat - 48)) 0

/-- An exactly-represented decimal number `mant / 10 ^ scale`, as parsed
from the digit strings of the source's regexes.  Kept un-normalized so
that all computations are kernel-reducible. -/
structure PyFloat where
  mant : Int
  scale : Nat
deriving DecidableEq, Repr

/-- The rational value of a parsed decimal. -/
def PyFloat.toRat (x : PyFloat) : Rat := (x.mant : Rat) / (10 : Rat) ^ x.scale

/-- Negation of a parsed decimal (Python's unary minus). -/
def PyFloat.neg (x : PyFloat) : PyFloat := ⟨-x.mant, x.scale⟩

/-- Models Python `float()` on the strings produced by stripping commas
from a match of `[\d,]+\.?\d*`: digits, optionally a single dot and more
digits.  Returns `none` exactly when `float` raises `ValueError`
(no digit at all, e.g. `""` or `"."`). -/
def pyFloatDec (s : String) : Option PyFloat :=
  let cs := s.data
  let ip := cs.takeWhile (·.isDigit)
  let rest := cs.drop ip.length
  match rest with
  | [] => if ip.isEmpty then none else some ⟨natOfDigits ip, 0⟩
  | '.' :: fp =>
    if fp.all (·.isDigit) && !(ip.isEmpty && fp.isEmpty) then
      some ⟨natOfDigits (ip ++ fp), fp.length⟩
    else none
  | _ :: _ => none

/-- One attempt of the regex `[\d,]+\.?\d*` anchored at the current
position: a nonempty run of digits/commas, then an optional dot, then a
digit run.  Greedy; nothing follows, so the maximal runs are taken. -/
def numRunAt (cs : List Char) : Option (List Char × List Char) :=
  let r1 := cs.takeWhile (fun c => c.isDigit || c = ',')
  if r1.isEmpty then none
  else
    let rest1 := cs.drop r1.length
    match rest1 with
    | '.' :: rest2 =>
      let r2 := rest2.takeWhile (·.isDigit)
      some (r1 ++ '.' :: r2, rest2.drop r2.length)
    | _ => some (r1, rest1)

/-- Models `re.search(r'[\d,]+\.?\d*', s)`: leftmost match of the
numeric-run pattern, returning the matched text. -/
def searchNumRun : List Char → Option (List Char)
  | [] => none
  | c :: rest =>
    match numRunAt (c :: rest) with
    | some (g, _) => some g
    | none => searchNumRun rest

/-- Models `parse_amount` of `extract_no_llm.py`: strip, detect a leading
`-` or `($` as the debit marker, strip `$`, search the first numeric run,
strip commas and parse as a decimal; `float` failure raises `ValueError`. -/
def parse_amount (s : String) : Except PyErr (Option PyFloat × Option String) :=
  let t := (pyStrip s).data
  let isDebit := isPrefL ['-'] t || isPrefL ['(', '$'] t
  match searchNumRun (t.filter (· ≠ '$')) with
  | some g =>
    match pyFloatDec ⟨stripCommasL g⟩ with
    | some v =>
      .ok (some (if isDebit then v.neg else v), some (if isDebit then "debit" else "credit"))
    | none => .error .valueError
  | none => .ok (none, none)

/-- Models `parse_balance` of `extract_no_llm.py`. -/
def parse_balance (s : String) : Except PyErr (Option PyFloat) :=
  match searchNumRun (s.data.filter (· ≠ '$')) with
  | some g =>
    match pyFloatDec ⟨stripCommasL g⟩ with
    | some v => .ok (some v)
    | none => .error .valueError
  | none => .ok none

/-! ### Date normalization (`normalize_date`)

Models CPython `datetime.strptime` for the three format strings
`'%B %d %Y'`, `'%b %d %Y'`, `'%m/%d/%Y'`: the format is turned into a
regex (`%B`/`%b` an alternation of month names, case-insensitive;
whitespace in the format `\s+`; `%d` the alternation
`3[01]|[12]\d|0[1-9]|[1-9]`; `%m` the alternation `1[0-2]|0[1-9]|[1-9]`;
`%Y` exactly four digits), the whole input must be consumed, and the
resulting calendar date must be constructible (`datetime` raises
`ValueError` for an out-of-range day, which `normalize_date` catches and
treats as a failed format). -/

/-- Case-insensitive literal match: strips `pat` (given lower-case) from
the front of `cs`, comparing lower-cased characters. -/
def stripCI : List Char → List Char → Option (List Char)
  | [], cs => some cs
  | _ :: _, [] => none
  | p :: ps, c :: cs => if c.toLower = p then stripCI ps cs else none

/-- Full month names with their month numbers, as in the C locale. -/
def monthsFull : List (String × Nat) :=
  [("january", 1), ("february", 2), ("march", 3), ("april", 4), ("may", 5),
   ("june", 6), ("july", 7), ("august", 8), ("september", 9), ("october", 10),
   ("november", 11), ("december", 12)]

/-- Abbreviated month names with their month numbers, as in the C locale. -/
def monthsAbbr : List (String × Nat) :=
  [("jan", 1), ("feb", 2), ("mar", 3), ("apr", 4), ("may", 5), ("jun", 6),
   ("jul", 7), ("aug", 8), ("sep", 9), ("oct", 10), ("nov", 11), ("dec", 12)]

/-- Matches the month-name alternation of `%B`/`%b` (no name is a prefix
of another, so at most one alternative matches). -/
def matchMonthName : List (String × Nat) → List Char → Option (Nat × List Char)
  | [], _ => none
  | (n, m) :: rest, cs =>
    match stripCI n.data cs with
    | some r => some (m, r)
    | none => matchMonthName rest cs

/-- Matches `\s+`: one or more whitespace characters, greedily.  The
token that follows is never whitespace, so greediness is safe. -/
def ws1 (cs : List Char) : Option (List Char) :=
  match cs with
  | c :: rest => if isPyWs c then some (rest.dropWhile isPyWs) else none
  | [] => none

/-- The numeric value of one ASCII digit. -/
def digitVal (c : Char) : Nat := c.toNat - 48

/-- The candidate matches of `%d`'s regex `3[01]|[12]\d|0[1-9]|[1-9]`,
in alternative order (two-digit alternatives before the one-digit one),
for backtracking against the continuation. -/
def dayAlts (cs : List Char) : List (Nat × List Char) :=
  (match cs with
   | c0 :: c1 :: rest =>
     (if c0 = '3' && (c1 = '0' || c1 = '1') then [(30 + digitVal c1, rest)] else []) ++
     (if (c0 = '1' || c0 = '2') && c1.isDigit then [(10 * digitVal c0 + digitVal c1, rest)] else []) ++
     (if c0 = '0' && c1.isDigit && c1 ≠ '0' then [(digitVal c1, rest)] else [])
   | _ => []) ++
  (match cs with
   | c0 :: rest => if c0.isDigit && c0 ≠ '0' then [(digitVal c0, rest)] else []
   | [] => [])

/-- The candidate matches of `%m`'s regex `1[0-2]|0[1-9]|[1-9]`, in
alternative order. -/
def monthNumAlts (cs : List Char) : List (Nat × List Char) :=
  (match cs with
   | c0 :: c1 :: rest =>
     (if c0 = '1' && (c1 = '0' || c1 = '1' || c1 = '2') then [(10 + digitVal c1, rest)] else []) ++
     (if c0 = '0' && c1.isDigit && c1 ≠ '0' then [(digitVal c1, rest)] else [])
   | _ => []) ++
  (match cs with
   | c0 :: rest => if c0.isDigit && c0 ≠ '0' then [(digitVal c0, rest)] else []
   | [] => [])

/-- Tries a continuation on each candidate in order; the first success
wins (regex alternation with backtracking). -/
def firstSome : List α → (α → Option β) → Option β
  | [], _ => none
  | a :: rest, f => match f a with | some b => some b | none => firstSome rest f

/-- Matches `%Y`: exactly four digits. -/
def year4 (cs : List Char) : Option (Nat × List Char) :=
  match cs with
  | a :: b :: c :: d :: rest =>
    if a.isDigit && b.isDigit && c.isDigit && d.isDigit then
      some (natOfDigits [a, b, c, d], rest)
    else none
  | _ => none

/-- The regex of `'%B %d %Y'` / `'%b %d %Y'` (month names passed in),
requiring the whole input to be consumed (strptime's
unconverted-data check).  Returns `(year, month, day)`. -/
def matchNameDY (names : List (String × Nat)) (cs : List Char) : Option (Nat × Nat × Nat) :=
  (matchMonthName names cs).bind fun (m, r1) =>
  (ws1 r1).bind fun r2 =>
  firstSome (dayAlts r2) fun (d, r3) =>
  (ws1 r3).bind fun r4 =>
  (year4 r4).bind fun (y, r5) =>
  if r5.isEmpty then some (y, m, d) else none

/-- The regex of `'%m/%d/%Y'`, requiring the whole input to be consumed.
Returns `(year, month, day)`. -/
def matchMDY (cs : List Char) : Option (Nat × Nat × Nat) :=
  firstSome (monthNumAlts cs) fun (m, r1) =>
  match r1 with
  | '/' :: r2 =>
    firstSome (dayAlts r2) fun (d, r3) =>
    match r3 with
    | '/' :: r4 =>
      (year4 r4).bind fun (y, r5) => if r5.isEmpty then some (y, m, d) else none
    | _ => none
  | _ => none

/-- Proleptic-Gregorian leap year, as `datetime` uses. -/
def isLeap (y : Nat) : Bool := y % 4 = 0 && (y % 100 ≠ 0 || y % 400 = 0)

/-- Days in a month, as `datetime` validates. -/
def daysInMonth (y m : Nat) : Nat :=
  if m = 2 then (if isLeap y then 29 else 28)
  else if m = 4 || m = 6 || m = 9 || m = 11 then 30
  else 31

/-- `datetime(year, month, day)` constructibility: the month is 1–12 by
the regex, the year is at most 9999 by the four-digit regex, so what
remains is year ≥ 1 and a day within the month. -/
def validYMD : Nat × Nat × Nat → Bool
  | (y, m, d) => 1 ≤ y && 1 ≤ d && d ≤ daysInMonth y m

/-- One `datetime.strptime(s, fmt)` attempt: regex match plus date
validation; `none` models the `ValueError` that `normalize_date`
catches. -/
def strptimeYMD (matcher : List Char → Option (Nat × Nat × Nat)) (s : String) :
    Option (Nat × Nat × Nat) :=
  (matcher s.data).bind fun ymd => if validYMD ymd then some ymd else none

/-- Zero-padded two-digit rendering (strftime `%m`, `%d`). -/
def pad2 (n : Nat) : String := if n < 10 then "0" ++ toString n else toString n

/-- Zero-padded four-digit rendering (strftime `%Y`). -/
def pad4 (n : Nat) : String :=
  if n < 10 then "000" ++ toString n
  else if n < 100 then "00" ++ toString n
  else if n < 1000 then "0" ++ toString n
  else toString n

/-- `dt.strftime('%Y-%m-%d')`. -/
def fmtYMD : Nat × Nat × Nat → String
  | (y, m, d) => pad4 y ++ "-" ++ pad2 m ++ "-" ++ pad2 d

/-- Models `normalize_date` of `extract_no_llm.py`: strip all commas,
try the three formats in order, render the first success as
`YYYY-MM-DD`, and fall back to returning the comma-stripped string. -/
def normalize_date (s : String) : String :=
  let s' := stripCommas s
  match strptimeYMD (matchNameDY monthsFull) s' with
  | some ymd => fmtYMD ymd
  | none =>
    match strptimeYMD (matchNameDY monthsAbbr) s' with
    | some ymd => fmtYMD ymd
    | none =>
      match strptimeYMD matchMDY s' with
      | some ymd => fmtYMD ymd
      | none => s'

/-! ### Text-metadata extractors -/

/-- Tries the continuation after dropping `j`, `j - 1`, …, `0` characters
of `t`: backtracking for a greedy character-class star whose maximal
match has length `j`. -/
def tryDropDesc (f : List Char → Option α) (t : List Char) : Nat → Option α
  | 0 => f t
  | j + 1 =>
    match f (t.drop (j + 1)) with
    | some a => some a
    | none => tryDropDesc f t j

/-- Matches `\*+\d+` at the current position, returning the matched text
(the capture group of the account-number patterns). -/
def starsDigitsAt (cs : List Char) : Option (List Char) :=
  let stars := cs.takeWhile (· = '*')
  if stars.isEmpty then none
  else
    let r := cs.drop stars.length
    let ds := r.takeWhile (·.isDigit)
    if ds.isEmpty then none else some (stars ++ ds)

/-- Matches one account-number pattern `<label>\s*(\*+\d+)` at the
current position (`label` lower-case, matched case-insensitively). -/
def acctPatAt (label : List Char) (cs : List Char) : Option (List Char) :=
  (stripCI label cs).bind fun r => starsDigitsAt (r.dropWhile isPyWs)

/-- Models `re.search` of one account-number pattern: leftmost position
where the pattern matches, returning the capture group. -/
def searchAcctPat (label : List Char) : List Char → Option (List Char)
  | [] => none
  | c :: rest =>
    match acctPatAt label (c :: rest) with
    | some g => some g
    | none => searchAcctPat label rest

/-- Models `extract_account_number` of `extract_no_llm.py`: the three
patterns `Account Number:\s*(\*+\d+)`, `Account No:\s*(\*+\d+)`,
`Acct#\s*(\*+\d+)` tried in priority order, case-insensitively; note the
third pattern has no colon after `Acct#`. -/
def extract_account_number (text : String) : Option String :=
  match searchAcctPat "account number:".data text.data with
  | some g => some ⟨g⟩
  | none =>
    match searchAcctPat "account no:".data text.data with
    | some g => some ⟨g⟩
    | none => (searchAcctPat "acct#".data text.data).map fun g => (⟨g⟩ : String)

/-- Matches `([A-Za-z\s]+)` at the current position: a nonempty greedy
run of letters and whitespace. -/
def nameRunAt (cs : List Char) : Option (List Char) :=
  let r := cs.takeWhile fun c => c.isAlpha || isPyWs c
  if r.isEmpty then none else some r

/-- Matches one account-holder pattern `<label>\s*([A-Za-z\s]+)` at the
current position.  `\s*` overlaps the capture class, so its greedy match
backtracks. -/
def holderPatAt (label : List Char) (cs : List Char) : Option (List Char) :=
  (stripCI label cs).bind fun rest =>
    tryDropDesc nameRunAt rest (rest.takeWhile isPyWs).length

/-- Leftmost match of one account-holder pattern. -/
def searchHolderPat (label : List Char) : List Char → Option (List Char)
  | [] => none
  | c :: rest =>
    match holderPatAt label (c :: rest) with
    | some g => some g
    | none => searchHolderPat label rest

/-- Models `extract_account_holder` of `extract_no_llm.py`. -/
def extract_account_holder (text : String) : Option String :=
  match searchHolderPat "account holder:".data text.data with
  | some g => some (pyStrip ⟨g⟩)
  | none =>
    match searchHolderPat "name:".data text.data with
    | some g => some (pyStrip ⟨g⟩)
    | none => (searchHolderPat "customer:".data text.data).map fun g => pyStrip ⟨g⟩

/-- The known-bank alternation of `extract_bank_name`, in alternative
order. -/
def bankAlts : List String :=
  ["CHASE", "Wells Fargo", "Bank of America", "Citibank", "Capital One",
   "TD Bank", "PNC"]

/-- Matches the bank alternation at the current position, returning the
text as it appears in the input (the capture group). -/
def bankAltAt (cs : List Char) : Option (List Char) :=
  firstSome bankAlts fun n =>
    match stripCI (lowerStr n).data cs with
    | some _ => some (cs.take n.length)
    | none => none

/-- Leftmost match of the bank alternation. -/
def searchBankAlt : List Char → Option (List Char)
  | [] => none
  | c :: rest =>
    match bankAltAt (c :: rest) with
    | some g => some g
    | none => searchBankAlt rest

/-- Models Python `s.split('\n')` (separator split, empties kept). -/
def splitNl : List Char → List (List Char)
  | [] => [[]]
  | '\n' :: rest => [] :: splitNl rest
  | c :: rest =>
    match splitNl rest with
    | w :: ws => (c :: w) :: ws
    | [] => [[c]]

/-- Models Python `s.split()` (split on whitespace runs, no empties);
the accumulator carries the current word reversed. -/
def wordsAux : List Char → List Char → List (List Char)
  | [], acc => if acc.isEmpty then [] else [acc.reverse]
  | c :: rest, acc =>
    if isPyWs c then
      if acc.isEmpty then wordsAux rest [] else acc.reverse :: wordsAux rest []
    else wordsAux rest (c :: acc)

/-- Models `extract_bank_name` of `extract_no_llm.py`: first line of the
stripped text; the known-bank alternation (case-insensitive, upper-cased
on match) takes precedence, else the first whitespace token, else
absent. -/
def extract_bank_name (text : String) : Option String :=
  let lines := splitNl (pyStrip text).data
  let first_line : String := ⟨((lines.headD []).dropWhile isPyWs).reverse.dropWhile isPyWs |>.reverse⟩
  match searchBankAlt first_line.data with
  | some g => some (upperStr ⟨g⟩)
  | none =>
    match wordsAux first_line.data [] with
    | w :: _ => some ⟨w⟩
    | [] => none

/-! ### Statement period -/

/-- Matches one capture group `([A-Za-z]+\s+\d{1,2},?\s+\d{4})` of the
date-range pattern at the current position, returning the matched text
and the rest.  Every adjacent pair of sub-patterns has disjoint first
characters, so greedy matching is deterministic except for `\d{1,2}`,
whose two-digit alternative is tried first with the continuation. -/
def dateGrpAt (cs : List Char) : Option (List Char × List Char) :=
  let letters := cs.takeWhile (·.isAlpha)
  if letters.isEmpty then none
  else
    let r1 := cs.drop letters.length
    let w1 := r1.takeWhile isPyWs
    if w1.isEmpty then none
    else
      let r2 := r1.drop w1.length
      let digCands : List (List Char × List Char) :=
        (match r2 with
         | a :: b :: r => if a.isDigit && b.isDigit then [([a, b], r)] else []
         | _ => []) ++
        (match r2 with
         | a :: r => if a.isDigit then [([a], r)] else []
         | [] => [])
      firstSome digCands fun (ds, r3) =>
        let (cm, r4) : List Char × List Char :=
          match r3 with
          | ',' :: r => ([','], r)
          | _ => ([], r3)
        let w2 := r4.takeWhile isPyWs
        if w2.isEmpty then none
        else
          match (r4.drop w2.length) with
          | a :: b :: c :: d :: r5 =>
            if a.isDigit && b.isDigit && c.isDigit && d.isDigit then
              some (letters ++ w1 ++ ds ++ cm ++ w2 ++ [a, b, c, d], r5)
            else none
          | _ => none

/-- Matches the full date-range pattern
`(<date>)\s*[-–]\s*(<date>)` at the current position, returning both
capture groups. -/
def dateRangeAt (cs : List Char) : Option (String × String) :=
  (dateGrpAt cs).bind fun (g1, r1) =>
    match r1.dropWhile isPyWs with
    | c :: r3 =>
      if c = '-' || c = '–' then
        (dateGrpAt (r3.dropWhile isPyWs)).map fun (g2, _) => ((⟨g1⟩ : String), (⟨g2⟩ : String))
      else none
    | [] => none

/-- Models `re.search` of the date-range pattern: leftmost match. -/
def searchDateRange : List Char → Option (String × String)
  | [] => none
  | c :: rest =>
    match dateRangeAt (c :: rest) with
    | some r => some r
    | none => searchDateRange rest

/-- The body of `extract_statement_period` parameterized over the date
normalizer, modelling its Python exception semantics faithfully: the
`try` block assigns `result["from"]` before computing the second
normalization, so a throw on the second date leaves `from` populated
while the `except: pass` swallows the exception. -/
def extract_statement_period_with (norm : String → Except Unit String) (text : String) :
    Option String × Option String :=
  match searchDateRange text.data with
  | none => (none, none)
  | some (g1, g2) =>
    match norm g1 with
    | .error _ => (none, none)
    | .ok d1 =>
      match norm g2 with
      | .error _ => (some d1, none)
      | .ok d2 => (some d1, some d2)

/-- Models `extract_statement_period` of `extract_no_llm.py`:
`normalize_date` is total, so it is injected with `.ok`. -/
def extract_statement_period (text : String) : Option String × Option String :=
  extract_statement_period_with (fun s => .ok (normalize_date s)) text

/-! ### Summary fields -/

/-- Matches `\$?([\d,]+\.?\d*)` at the current position: the `\$?` tries
the dollar sign first, then the empty alternative (which fails on a
dollar sign because `$` is not in `[\d,]`). -/
def dollarNumAt (cs : List Char) : Option (List Char) :=
  match cs with
  | '$' :: r =>
    match numRunAt r with
    | some (g, _) => some g
    | none => none
  | _ =>
    match numRunAt cs with
    | some (g, _) => some g
    | none => none

/-- Matches `<label>[^$]*\$?([\d,]+\.?\d*)` at the current position:
case-insensitive label, then the greedy `[^$]*` backtracks from its
maximal match. -/
def labelNumAt (label : List Char) (cs : List Char) : Option (List Char) :=
  (stripCI label cs).bind fun t =>
    tryDropDesc dollarNumAt t (t.takeWhile (· ≠ '$')).length

/-- Models `re.search` of one summary pattern: leftmost match, returning
the numeric capture group. -/
def searchLabelNum (label : List Char) : List Char → Option (List Char)
  | [] => none
  | c :: rest =>
    match labelNumAt label (c :: rest) with
    | some g => some g
    | none => searchLabelNum label rest

/-- One summary field: first match of
`<label>[^$]*\$?([\d,]+\.?\d*)` (case-insensitive), commas stripped from
the numeric group, parsed as a decimal; `none` on no match or on a
`float` failure (the `except ValueError: pass`). -/
def summaryField (label : String) (text : String) : Option PyFloat :=
  (searchLabelNum (lowerStr label).data text.data).bind fun g =>
    pyFloatDec ⟨stripCommasL g⟩

/-- The summary record of `extract_summary`. -/
structure Summary where
  opening_balance : Option PyFloat
  closing_balance : Option PyFloat
  total_credits : Option PyFloat
  total_debits : Option PyFloat
deriving DecidableEq, Repr

/-- Models `extract_summary` of `extract_no_llm.py`: the four labelled
patterns applied independently to the full text. -/
def extract_summary (text : String) : Summary :=
  ⟨summaryField "Opening Balance" text, summaryField "Closing Balance" text,
   summaryField "Total Credits" text, summaryField "Total Debits" text⟩

/-! ### Transaction tables -/

/-- A table cell as delivered by `pdfplumber`: a string or `None`. -/
abbrev Cell := Option String

/-- A table grid: rows of cells, first row treated as header. -/
abbrev TableGrid := List (List Cell)

/-- Python truthiness of a cell (`None` and `""` are falsy). -/
def truthy : Cell → Bool
  | none => false
  | some s => s != ""

/-- Models `str(cell or "")`: the cell's string if truthy, else `""`. -/
def orEmpty : Cell → String
  | none => ""
  | some s => s

/-- Python truthiness of an optional string field. -/
def truthyOpt : Option String → Bool
  | none => false
  | some s => s != ""

/-- One extracted transaction (`trans` dict of
`parse_transaction_table`). -/
structure Transaction where
  date : Option String
  description : Option String
  amount : Option PyFloat
  balance : Option PyFloat
  type : Option String
deriving DecidableEq, Repr

/-- The column map built from the header row (`col_map` dict). -/
structure ColMap where
  date : Option Nat := none
  description : Option Nat := none
  amount : Option Nat := none
  balance : Option Nat := none
deriving DecidableEq, Repr

/-- One step of the column-mapping loop: substring tests in the fixed
`elif` priority order; a later column overwrites an earlier mapping of
the same field. -/
def updateColMap (cm : ColMap) (i : Nat) (h : String) : ColMap :=
  if isSubL "date".data h.data then { cm with date := some i }
  else if isSubL "description".data h.data then { cm with description := some i }
  else if isSubL "amount".data h.data then { cm with amount := some i }
  else if isSubL "balance".data h.data then { cm with balance := some i }
  else cm

/-- The header cells of `parse_transaction_table`:
`str(cell).lower().strip() if cell else ""`. -/
def headerCellsP (table : TableGrid) : List String :=
  (table.headD []).map fun c => if truthy c then pyStrip (lowerStr (orEmpty c)) else ""

/-- The column map of a table's header row. -/
def colMapOf (headers : List String) : ColMap :=
  (headers.enum).foldl (fun cm p => updateColMap cm p.1 p.2) {}

/-- Models `row[i]`: `IndexError` when out of range. -/
def getCell (row : List Cell) (i : Nat) : Except PyErr Cell :=
  match row.get? i with
  | some c => .ok c
  | none => .error .indexError

/-- The date field of one data row: `normalize_date(str(row[i] or ""))`
when the date column is mapped. -/
def fieldDate (cm : ColMap) (row : List Cell) : Except PyErr (Option String) :=
  match cm.date with
  | none => .ok none
  | some i => (getCell row i).map fun c => some (normalize_date (orEmpty c))

/-- The description field: `str(row[i] or "").strip()` when mapped. -/
def fieldDesc (cm : ColMap) (row : List Cell) : Except PyErr (Option String) :=
  match cm.description with
  | none => .ok none
  | some i => (getCell row i).map fun c => some (pyStrip (orEmpty c))

/-- The amount and type fields: `parse_amount(str(row[i] or ""))` when
mapped. -/
def fieldAmount (cm : ColMap) (row : List Cell) :
    Except PyErr (Option PyFloat × Option String) :=
  match cm.amount with
  | none => .ok (none, none)
  | some i =>
    match getCell row i with
    | .error e => .error e
    | .ok c => parse_amount (orEmpty c)

/-- The balance field: `parse_balance(str(row[i] or ""))` when mapped. -/
def fieldBalance (cm : ColMap) (row : List Cell) : Except PyErr (Option PyFloat) :=
  match cm.balance with
  | none => .ok none
  | some i =>
    match getCell row i with
    | .error e => .error e
    | .ok c => parse_balance (orEmpty c)

/-- Builds the `trans` dict for one data row, in the source's field
order (date, description, amount/type, balance), short-circuiting on the
first raised exception. -/
def buildTrans (cm : ColMap) (row : List Cell) : Except PyErr Transaction :=
  match fieldDate cm row with
  | .error e => .error e
  | .ok date =>
    match fieldDesc cm row with
    | .error e => .error e
    | .ok desc =>
      match fieldAmount cm row with
      | .error e => .error e
      | .ok amtType =>
        match fieldBalance cm row with
        | .error e => .error e
        | .ok bal => .ok ⟨date, desc, amtType.1, bal, amtType.2⟩

/-- The retention test of line 215: `if trans["date"] or
trans["description"]` — string truthiness, not presence. -/
def keepTrans (t : Transaction) : Bool := truthyOpt t.date || truthyOpt t.description

/-- Processes one data row: skip if the row is empty or every cell is
falsy, else build the transaction and keep it only if the retention test
passes. -/
def processRow (cm : ColMap) (row : List Cell) : Except PyErr (Option Transaction) :=
  if row.isEmpty || row.all fun c => !truthy c then .ok none
  else
    match buildTrans cm row with
    | .error e => .error e
    | .ok t => .ok (if keepTrans t then some t else none)

/-- Folds the data rows in order, collecting retained transactions. -/
def rowsGo (cm : ColMap) : List (List Cell) → Except PyErr (List Transaction)
  | [] => .ok []
  | r :: rest =>
    match processRow cm r with
    | .error e => .error e
    | .ok o =>
      match rowsGo cm rest with
      | .error e => .error e
      | .ok ts => .ok (match o with | some t => t :: ts | none => ts)

/-- Models `parse_transaction_table` of `extract_no_llm.py`. -/
def parse_transaction_table (table : TableGrid) : Except PyErr (List Transaction) :=
  if table.length < 2 then .ok []
  else rowsGo (colMapOf (headerCellsP table)) (table.drop 1)

/-- The transaction-header tokens of line 47, in source order. -/
def headerTokens : List String := ["date", "description", "amount", "balance"]

/-- The header cells as computed on line 44 of `extract_bank_statement`:
`str(cell).lower() if cell else ""` — lower-cased but NOT stripped. -/
def headerCellsQ (table : TableGrid) : List String :=
  (table.headD []).map fun c => if truthy c then lowerStr (orEmpty c) else ""

/-- The table-qualification test of lines 43–47: at least two rows and
`any(h in headers for h in [...])` — which is list membership of the
token among the header cells (exact equality), not a substring test. -/
def qualifies (table : TableGrid) : Bool :=
  !table.isEmpty && decide (1 < table.length) &&
    headerTokens.any fun tok => (headerCellsQ table).contains tok

/-- The table loop of `extract_bank_statement`: every qualifying table
is parsed and its result overwrites `result["transactions"]`. -/
def transFold : List TableGrid → List Transaction → Except PyErr (List Transaction)
  | [], acc => .ok acc
  | t :: rest, acc =>
    if qualifies t then
      match parse_transaction_table t with
      | .error e => .error e
      | .ok txs => transFold rest txs
    else transFold rest acc

/-- One PDF page as delivered by the pdfplumber boundary: its extracted
text (already defaulted to `""` on failure) and its table grids. -/
structure Page where
  text : String
  tables : List TableGrid

/-- All table grids of all pages, in page/table order. -/
def allTables : List Page → List TableGrid
  | [] => []
  | p :: rest => p.tables ++ allTables rest

/-- The concatenated text (`full_text += text + "\n"`). -/
def fullTextOf : List Page → String
  | [] => ""
  | p :: rest => p.text ++ "\n" ++ fullTextOf rest

/-- The output record of `extract_bank_statement`. -/
structure StatementRecord where
  bank_name : Option String
  account_holder : Option String
  account_number : Option String
  statement_period : Option String × Option String
  summary : Summary
  transactions : List Transaction
deriving DecidableEq, Repr

/-- Models `extract_bank_statement` of `extract_no_llm.py` given the
pdfplumber page contents: table loop over all pages (each qualifying
table overwrites the transactions), then the regex metadata extractors
over the concatenated text. -/
def extract_bank_statement (pages : List Page) : Except PyErr StatementRecord :=
  match transFold (allTables pages) [] with
  | .error e => .error e
  | .ok txs =>
    let ft := fullTextOf pages
    .ok { bank_name := extract_bank_name ft
          account_holder := extract_account_holder ft
          account_number := extract_account_number ft
          statement_period := extract_statement_period ft
          summary := extract_summary ft
          transactions := txs }

/-! ### The decryption boundary (`scripts/decrypt_pdf.py`)

The pypdf / base64 / filesystem calls are external library I/O; they are
abstracted as an environment recording each call's outcome (a raised
exception is an `Except.error` carrying the exception's message, as the
script inspects messages).  The control flow of `decrypt_pdf` — the two
nested `try` blocks, the encrypted check, the falsy `reader.decrypt`
result, the message-sniffing re-raise and the outer catch-all — is
translated from the source. -/

/-- Outcomes of the external calls made by `decrypt_pdf`, in call order. -/
structure DecryptEnv where
  /-- `base64.b64decode` and the temp-file write: exception message on failure. -/
  b64decode : Except String Unit
  /-- `PdfReader(input_path)`: exception message on failure. -/
  readPdf : Except String Unit
  /-- `reader.is_encrypted`. -/
  is_encrypted : Bool
  /-- Truthiness of `reader.decrypt(password)` for the supplied password,
  or the message of an exception it raises. -/
  decryptOk : Except String Bool
  /-- The page-copying / writing / re-reading block: exception message on
  failure. -/
  writeCopy : Except String Unit
  /-- The base64 of the decrypted output when the copy succeeds. -/
  outB64 : String
  /-- `len(reader.pages)`. -/
  numPages : Nat

/-- The JSON result dict of `decrypt_pdf`. -/
structure DecryptResult where
  success : Bool
  error : Option String
  is_encrypted : Option Bool
  decrypted_base64 : Option String
  num_pages : Option Nat
deriving DecidableEq, Repr

/-- The structured incorrect-password failure returned on a falsy
`reader.decrypt` result (lines 48–52 of the script). -/
def incorrectPasswordResult : DecryptResult :=
  ⟨false, some "Incorrect password. Please check and try again.", some true, none, none⟩

/-- The inner `try` body of `decrypt_pdf` (lines 40–85). -/
def decryptInner (env : DecryptEnv) : Except String DecryptResult :=
  match env.readPdf with
  | .error msg => .error msg
  | .ok _ =>
    if env.is_encrypted then
      match env.decryptOk with
      | .error msg => .error msg
      | .ok ok =>
        if ok then
          match env.writeCopy with
          | .error msg => .error msg
          | .ok _ => .ok ⟨true, none, some env.is_encrypted, some env.outB64, some env.numPages⟩
        else .ok incorrectPasswordResult
    else
      match env.writeCopy with
      | .error msg => .error msg
      | .ok _ => .ok ⟨true, none, some env.is_encrypted, some env.outB64, some env.numPages⟩

/-- The message heuristic of the inner `except` (line 90). -/
def pwMessage (msg : String) : Bool :=
  isSubL "password".data (lowerStr msg).data ||
  isSubL "encrypt".data (lowerStr msg).data ||
  isSubL "decrypt".data (lowerStr msg).data

/-- The inner `except Exception` handler (lines 87–96): password-looking
messages become a structured needs-password failure, everything else is
re-raised. -/
def decryptMid (env : DecryptEnv) : Except String DecryptResult :=
  match decryptInner env with
  | .ok r => .ok r
  | .error msg =>
    if pwMessage msg then
      .ok ⟨false, some "This PDF requires a password. Please enter the correct password.", some true, none, none⟩
    else .error msg

/-- Models `decrypt_pdf` of `scripts/decrypt_pdf.py`: the outer
`try`/`except` catches everything and returns a generic structured
failure, so the function never raises. -/
def decrypt_pdf (env : DecryptEnv) : DecryptResult :=
  match (match env.b64decode with
         | .error msg => .error msg
         | .ok _ => decryptMid env : Except String DecryptResult) with
  | .ok r => r
  | .error msg => ⟨false, some ("Failed to process PDF: " ++ msg), some false, none, none⟩

/-! ### Definitions used only to state the claims -/

/-- The last table of the list that qualifies, if any — the table whose
parse the overwriting loop of `extract_bank_statement` leaves in the
result. -/
def lastQ : List TableGrid → Option TableGrid
  | [] => none
  | t :: rest =>
    match lastQ rest with
    | some u => some u
    | none => if qualifies t then some t else none

/-- Modelled from the spec's words for claim C2 (refinement target, not
from the source): a grid qualifies if it has at least a header row plus
one data row and some lower-cased header cell contains one of the tokens
as a substring. -/
def qualifiesSpecC2 (table : TableGrid) : Bool :=
  decide (2 ≤ table.length) &&
    (headerCellsQ table).any fun h => headerTokens.any fun tok => isSubL tok.data h.data

/-- A qualifying table whose single data row is "alpha". -/
def tblAlpha : TableGrid := [[some "description"], [some "alpha"]]

/-- A qualifying table whose single data row is "beta". -/
def tblBeta : TableGrid := [[some "description"], [some "beta"]]

/-- A qualifying table whose amount cell is a bare comma, so parsing it
raises `ValueError`. -/
def tblComma : TableGrid := [[some "amount"], [some ","]]

/-- A one-page document with two qualifying tables. -/
def twoTablePages : List Page := [⟨"", [tblAlpha, tblBeta]⟩]

/-- The record `extract_bank_statement` produces for `twoTablePages`. -/
def twoTableRecord : StatementRecord :=
  ⟨none, none, none, (none, none), ⟨none, none, none, none⟩,
   [⟨none, some "beta", none, none, none⟩]⟩

/-- Header row whose only header cell containing a token contains it
strictly as a substring. -/
def substringHeaderTable : TableGrid :=
  [[some "Transaction Date", some "Details"], [some "Jan 1", some "coffee"]]

/-- The date-range text used to probe the statement-period error
handling. -/
def periodText : String := "January 1, 2024 - January 31, 2024"

/-- A normalizer that throws exactly on the second captured date of
`periodText`. -/
def badNorm : String → Except Unit String :=
  fun s => if s = "January 31, 2024" then .error () else .ok (normalize_date s)

/-- Column map mapping description to column 0 and amount to column 1
(as produced by a `["Description", "Amount"]` header). -/
def descAmountMap : ColMap := ⟨none, some 0, some 1, none⟩

/-- An environment describing a well-formed encrypted PDF and a wrong
password: decoding and reading succeed, the reader reports encryption,
and `reader.decrypt` returns a falsy result. -/
def wrongPwEnv : DecryptEnv := ⟨.ok (), .ok (), true, .ok false, .ok (), "", 0⟩

/-! ## Helper lemmas -/

/-- A falsy cell contributes the empty string to `str(cell or "")`. -/
theorem orEmpty_of_not_truthy {c : Cell} (h : truthy c = false) : orEmpty c = "" := by
  cases c with
  | none => rfl
  | some s =>
    simp [truthy, bne] at h
    simpa [orEmpty] using h

/-- Normalizing the empty string yields the empty string. -/
theorem normalize_date_empty : normalize_date "" = "" := by decide

/-- Stripping the empty string yields the empty string. -/
theorem pyStrip_empty : pyStrip "" = "" := by decide

/-- A truthy optional string is not absent. -/
theorem truthyOpt_ne_none {o : Option String} (h : truthyOpt o = true) : o ≠ none := by
  cases o with
  | none => simp [truthyOpt] at h
  | some s => simp

/-- What a successful `transFold` run returns: the accumulator when no
table qualifies, else the parse of the last qualifying table. -/
theorem transFold_last (tables : List TableGrid) :
    ∀ acc txs, transFold tables acc = .ok txs →
      (lastQ tables = none → txs = acc) ∧
      ∀ t, lastQ tables = some t → parse_transaction_table t = .ok txs := by
  induction tables with
  | nil =>
    intro acc txs h
    simp only [transFold] at h
    cases h
    exact ⟨fun _ => rfl, fun t ht => by simp [lastQ] at ht⟩
  | cons tb rest ih =>
    intro acc txs h
    cases hq : qualifies tb with
    | false =>
      rw [transFold, hq] at h
      simp only [Bool.false_eq_true, if_false] at h
      have := ih acc txs h
      cases hl : lastQ rest with
      | none =>
        refine ⟨fun _ => this.1 hl, fun t ht => ?_⟩
        rw [lastQ, hl] at ht
        simp [hq] at ht
      | some u =>
        refine ⟨fun hn => ?_, fun t ht => ?_⟩
        · rw [lastQ, hl] at hn; cases hn
        · rw [lastQ, hl] at ht
          cases ht
          exact this.2 u hl
    | true =>
      rw [transFold, hq] at h
      simp only [if_true] at h
      cases hp : parse_transaction_table tb with
      | error e => rw [hp] at h; cases h
      | ok txs' =>
        rw [hp] at h
        have := ih txs' txs h
        cases hl : lastQ rest with
        | none =>
          refine ⟨fun hn => ?_, fun t ht => ?_⟩
          · rw [lastQ, hl] at hn
            simp only [hq, if_true] at hn
            cases hn
          · rw [lastQ, hl] at ht
            simp only [hq, if_true] at ht
            cases ht
            rw [hp, this.1 hl]
        | some u =>
          refine ⟨fun hn => ?_, fun t ht => ?_⟩
          · rw [lastQ, hl] at hn; cases hn
          · rw [lastQ, hl] at ht
            cases ht
            exact this.2 u hl

/-! ## Claim C1 -/

/-- C1 (counterexample): the document `twoTablePages` has two qualifying
tables; the first one in page/table order parses to the "alpha"
transaction, but the output record's transactions are the "beta"
transactions from the second qualifying table, so the first table does
not win and later qualifying tables are consulted. -/
theorem C1_counterexample :
    allTables twoTablePages = [tblAlpha, tblBeta] ∧
    qualifies tblAlpha = true ∧ qualifies tblBeta = true ∧
    parse_transaction_table tblAlpha =
      .ok [⟨none, some "alpha", none, none, none⟩] ∧
    extract_bank_statement twoTablePages = .ok twoTableRecord ∧
    twoTableRecord.transactions = [⟨none, some "beta", none, none, none⟩] ∧
    ([⟨none, some "beta", none, none, none⟩] : List Transaction) ≠
      [⟨none, some "alpha", none, none, none⟩] := by
  refine ⟨by decide, by decide, by decide, by decide, by decide, by decide, by decide⟩

/-- C1 (amended): the transactions of the output record are those parsed
from the LAST qualifying table in page/table order ([] when none
qualifies); every qualifying table is parsed as encountered, each
overwriting the previous result, so an earlier qualifying table whose
parse raises aborts the extraction even when a later qualifying table
exists (the concrete conjuncts). -/
theorem C1_theorem :
    (∀ (tables : List TableGrid) (acc txs : List Transaction),
       transFold tables acc = .ok txs →
       (lastQ tables = none → txs = acc) ∧
       ∀ t, lastQ tables = some t → parse_transaction_table t = .ok txs) ∧
    (∀ (pages : List Page) (r : StatementRecord),
       extract_bank_statement pages = .ok r →
       (lastQ (allTables pages) = none → r.transactions = []) ∧
       ∀ t, lastQ (allTables pages) = some t →
         parse_transaction_table t = .ok r.transactions) ∧
    transFold [tblComma, tblBeta] [] = .error .valueError ∧
    qualifies tblComma = true ∧ qualifies tblBeta = true := by
  refine ⟨fun tables acc txs h => transFold_last tables acc txs h,
          fun pages r h => ?_, by decide, by decide, by decide⟩
  rw [extract_bank_statement] at h
  cases hf : transFold (allTables pages) [] with
  | error e => rw [hf] at h; cases h
  | ok txs =>
    rw [hf] at h
    cases h
    exact transFold_last (allTables pages) [] txs hf

/-- C1 (witness): instantiating the amended claim on the concrete
two-table document identifies the output transactions with the parse of
the last qualifying table. -/
theorem C1_witness :
    parse_transaction_table tblBeta = .ok twoTableRecord.transactions :=
  (C1_theorem.2.1 twoTablePages twoTableRecord (by decide)).2 tblBeta (by decide)

/-! ## Claim C2 -/

/-- C2 (counterexample): a table whose lower-cased header cell
`"transaction date"` contains the token `"date"` as a substring (so it
qualifies under the claim's substring reading) is not a qualifying table
for the code, which tests list membership, i.e. exact cell equality. -/
theorem C2_counterexample :
    qualifiesSpecC2 substringHeaderTable = true ∧
    qualifies substringHeaderTable = false := by
  refine ⟨by decide, by decide⟩

/-- C2 (amended): a grid qualifies as a transaction table if and only if
it has at least a header row plus one data row and some cell of its
lower-cased header row is EQUAL to one of the tokens "date",
"description", "amount", "balance" (substring matches do not qualify). -/
theorem C2_theorem (table : TableGrid) :
    qualifies table = true ↔
      2 ≤ table.length ∧ ∃ h ∈ headerCellsQ table, h ∈ headerTokens := by
  constructor
  · intro hq
    rw [qualifies] at hq
    simp only [Bool.and_eq_true, List.any_eq_true, decide_eq_true_eq] at hq
    obtain ⟨⟨_, hlen⟩, tok, htok, hmem⟩ := hq
    exact ⟨hlen, tok, List.elem_iff.mp hmem, htok⟩
  · rintro ⟨hlen, h, hmem, htok⟩
    rw [qualifies]
    simp only [Bool.and_eq_true, List.any_eq_true, decide_eq_true_eq]
    refine ⟨⟨?_, hlen⟩, h, htok, List.elem_iff.mpr hmem⟩
    simp only [Bool.not_eq_true', List.isEmpty_eq_false_iff_exists_mem]
    cases table with
    | nil => simp at hlen
    | cons r rs => exact ⟨r, List.mem_cons_self r rs⟩

/-! ## Claim C3 -/

/-- Every transaction produced by a retained row passed the retention
test of line 215. -/
theorem rowsGo_mem_keep (cm : ColMap) (rows : List (List Cell)) :
    ∀ txs, rowsGo cm rows = .ok txs → ∀ t ∈ txs, keepTrans t = true := by
  induction rows with
  | nil =>
    intro txs h t ht
    simp only [rowsGo] at h
    cases h
    cases ht
  | cons r rest ih =>
    intro txs h t ht
    rw [rowsGo] at h
    cases ho : processRow cm r with
    | error e => rw [ho] at h; cases h
    | ok o =>
      rw [ho] at h
      cases hr : rowsGo cm rest with
      | error e => rw [hr] at h; cases h
      | ok ts =>
        rw [hr] at h
        cases h
        cases o with
        | none => exact ih ts hr t ht
        | some t' =>
          rcases List.mem_cons.mp ht with hh | hh
          · subst hh
            rw [processRow] at ho
            by_cases hskip : (r.isEmpty || r.all fun c => !truthy c) = true
            · rw [if_pos hskip] at ho; cases ho
            · rw [if_neg hskip] at ho
              cases hb : buildTrans cm r with
              | error e => rw [hb] at ho; cases ho
              | ok tb =>
                rw [hb] at ho
                have ho' : Except.ok (ε := PyErr)
                    (if keepTrans tb = true then some tb else none) =
                    Except.ok (some t) := ho
                by_cases hk : keepTrans tb = true
                · rw [if_pos hk] at ho'
                  cases ho'
                  exact hk
                · rw [if_neg hk] at ho'
                  cases ho' 
          · exact ih ts hr t hh

/-- C3: every transaction in the parse of a table has a non-absent date
or a non-absent description; a data row all of whose cells are empty or
absent yields no transaction; and in particular the table with header
`["Date","Description","Amount","Balance"]` and one all-empty data row
produces zero transactions. -/
theorem C3_theorem :
    (∀ (table : TableGrid) (txs : List Transaction),
       parse_transaction_table table = .ok txs →
       ∀ t ∈ txs, t.date ≠ none ∨ t.description ≠ none) ∧
    (∀ (cm : ColMap) (row : List Cell),
       (row.all fun c => !truthy c) = true → processRow cm row = .ok none) ∧
    parse_transaction_table
      [[some "Date", some "Description", some "Amount", some "Balance"],
       [some "", some "", some "", some ""]] = .ok [] := by
  refine ⟨fun table txs h t ht => ?_, fun cm row hall => ?_, by decide⟩
  · have hk : keepTrans t = true := by
      rw [parse_transaction_table] at h
      by_cases hlen : table.length < 2
      · rw [if_pos hlen] at h
        cases h
        cases ht
      · rw [if_neg hlen] at h
        exact rowsGo_mem_keep _ _ txs h t ht
    rw [keepTrans, Bool.or_eq_true] at hk
    rcases hk with hd | hd
    · exact Or.inl (truthyOpt_ne_none hd)
    · exact Or.inr (truthyOpt_ne_none hd)
  · rw [processRow, if_pos]
    rw [hall, Bool.or_true]

/-- C3 (witness): the invariant instantiated on a concrete parse and a
concrete all-empty row. -/
theorem C3_witness :
    ((⟨none, some "alpha", none, none, none⟩ : Transaction).date ≠ none ∨
     (⟨none, some "alpha", none, none, none⟩ : Transaction).description ≠ none) ∧
    processRow {} [none, some ""] = .ok none :=
  ⟨C3_theorem.1 [[some "description"], [some "alpha"]]
      [⟨none, some "alpha", none, none, none⟩] (by decide) _ (by simp),
   C3_theorem.2.1 {} [none, some ""] (by decide)⟩

/-! ## Claim C10 -/

/-- C10: retention is decided by string truthiness, not field presence:
when the description column is mapped to an empty-or-absent cell and the
date column is unmapped or also maps to an empty-or-absent cell, the
built transaction carries a present-but-empty description `some ""`, yet
the row produces no transaction. -/
theorem C10_theorem (cm : ColMap) (row : List Cell) (i : Nat) (c : Cell)
    (t : Transaction) (hdesc : cm.description = some i)
    (hget : row.get? i = some c) (htr : truthy c = false)
    (hdate : cm.date = none ∨
      ∃ j c', cm.date = some j ∧ row.get? j = some c' ∧ truthy c' = false)
    (hbuild : buildTrans cm row = .ok t) :
    t.description = some "" ∧ processRow cm row = .ok none := by
  have hget' : row[i]? = some c := by simpa using hget
  have hfdesc : fieldDesc cm row = .ok (some "") := by
    rw [fieldDesc, hdesc]
    simp [getCell, hget', Except.map, orEmpty_of_not_truthy htr, pyStrip_empty]
  have hfdate : fieldDate cm row = .ok none ∨ fieldDate cm row = .ok (some "") := by
    rcases hdate with hd | ⟨j, c', hdj, hgj, htj⟩
    · left; rw [fieldDate, hd]
    · right
      have hgj' : row[j]? = some c' := by simpa using hgj
      rw [fieldDate, hdj]
      simp [getCell, hgj', Except.map, orEmpty_of_not_truthy htj, normalize_date_empty]
  have hparts : t.description = some "" ∧ keepTrans t = false := by
    rw [buildTrans, hfdesc] at hbuild
    have hdate' : ∃ d, fieldDate cm row = .ok d ∧ truthyOpt d = false := by
      rcases hfdate with h' | h'
      · exact ⟨none, h', rfl⟩
      · exact ⟨some "", h', rfl⟩
    obtain ⟨d, hd, hdt⟩ := hdate'
    rw [hd] at hbuild
    cases ha : fieldAmount cm row with
    | error e => rw [ha] at hbuild; cases hbuild
    | ok amtType =>
      rw [ha] at hbuild
      cases hb : fieldBalance cm row with
      | error e => rw [hb] at hbuild; cases hbuild
      | ok bal =>
        rw [hb] at hbuild
        cases hbuild
        refine ⟨rfl, ?_⟩
        show (truthyOpt d || truthyOpt (some "")) = false
        rw [hdt]
        decide
  refine ⟨hparts.1, ?_⟩
  rw [processRow]
  by_cases hskip : (row.isEmpty || row.all fun c => !truthy c) = true
  · rw [if_pos hskip]
  · rw [if_neg hskip, hbuild]
    show Except.ok (if keepTrans t = true then some t else none) = Except.ok none
    rw [hparts.2]
    simp

/-- C10 (witness): a `["Description", "Amount"]` column map over the row
`["", "$5.00"]` builds a transaction with a present empty description
and a parsed amount, yet the row is dropped. -/
theorem C10_witness :
    (⟨none, some "", some ⟨500, 2⟩, none, some "credit"⟩ : Transaction).description
        = some "" ∧
    processRow descAmountMap [some "", some "$5.00"] = .ok none :=
  C10_theorem descAmountMap [some "", some "$5.00"] 0 (some "")
    ⟨none, some "", some ⟨500, 2⟩, none, some "credit"⟩
    rfl (by decide) (by decide) (Or.inl rfl) (by decide)

/-! ## Claim C4 -/

/-- C4 (counterexample): no format parses `"Q1, 2024"`, yet
`normalize_date` does not return the input unchanged — it returns the
comma-stripped string `"Q1 2024"`. -/
theorem C4_counterexample :
    strptimeYMD (matchNameDY monthsFull) "Q1, 2024" = none ∧
    strptimeYMD (matchNameDY monthsAbbr) "Q1, 2024" = none ∧
    strptimeYMD matchMDY "Q1, 2024" = none ∧
    normalize_date "Q1, 2024" = "Q1 2024" ∧
    "Q1 2024" ≠ "Q1, 2024" := by
  refine ⟨by decide, by decide, by decide, by decide, by decide⟩

/-- C4 (amended): commas are removed from the input first; the three
formats are tried in order on the comma-stripped string and the first
that parses yields the canonical `YYYY-MM-DD` rendering; if none parses,
the COMMA-STRIPPED input (not necessarily the original) is returned.
The claim's examples hold: `"January 5, 2024"` normalizes to
`"2024-01-05"` and `"Q1 2024"` is returned unchanged. -/
theorem C4_theorem :
    (∀ s ymd, strptimeYMD (matchNameDY monthsFull) (stripCommas s) = some ymd →
       normalize_date s = fmtYMD ymd) ∧
    (∀ s ymd, strptimeYMD (matchNameDY monthsFull) (stripCommas s) = none →
       strptimeYMD (matchNameDY monthsAbbr) (stripCommas s) = some ymd →
       normalize_date s = fmtYMD ymd) ∧
    (∀ s ymd, strptimeYMD (matchNameDY monthsFull) (stripCommas s) = none →
       strptimeYMD (matchNameDY monthsAbbr) (stripCommas s) = none →
       strptimeYMD matchMDY (stripCommas s) = some ymd →
       normalize_date s = fmtYMD ymd) ∧
    (∀ s, strptimeYMD (matchNameDY monthsFull) (stripCommas s) = none →
       strptimeYMD (matchNameDY monthsAbbr) (stripCommas s) = none →
       strptimeYMD matchMDY (stripCommas s) = none →
       normalize_date s = stripCommas s) ∧
    normalize_date "January 5, 2024" = "2024-01-05" ∧
    normalize_date "Q1 2024" = "Q1 2024" := by
  refine ⟨fun s ymd h1 => ?_, fun s ymd h1 h2 => ?_, fun s ymd h1 h2 h3 => ?_,
          fun s h1 h2 h3 => ?_, by decide, by decide⟩
  · rw [normalize_date]; rw [h1]
  · rw [normalize_date]; rw [h1, h2]
  · rw [normalize_date]; rw [h1, h2, h3]
  · rw [normalize_date]; rw [h1, h2, h3]

/-- C4 (witness): the fallback chain instantiated on concrete dates —
the full-month format wins for `"March 3, 2024"` and the passthrough
branch fires for `"Q2 2025"`. -/
theorem C4_witness :
    normalize_date "March 3, 2024" = fmtYMD (2024, 3, 3) ∧
    normalize_date "Q2 2025" = stripCommas "Q2 2025" :=
  ⟨C4_theorem.1 "March 3, 2024" (2024, 3, 3) (by decide),
   C4_theorem.2.2.2.1 "Q2 2025" (by decide) (by decide) (by decide)⟩

/-! ## Claim C5 -/

/-- C5 (code bug): the claim's examples hold — `"-$89.99"` parses to the
debit `-89.99` and `"$1,000.00"` to the credit `1000.00`, and a string
with no digits yields absent amount and kind — but the amount cell `","`
(whose first `[\d,]+\.?\d*` match is the digit-free `","`) makes
`float('')` raise an uncaught `ValueError` instead of producing absent
fields. -/
theorem C5_theorem :
    parse_amount "," = .error .valueError ∧
    parse_amount "-$89.99" = .ok (some ⟨-8999, 2⟩, some "debit") ∧
    (PyFloat.mk (-8999) 2).toRat = -89.99 ∧
    parse_amount "$1,000.00" = .ok (some ⟨100000, 2⟩, some "credit") ∧
    (PyFloat.mk 100000 2).toRat = 1000 ∧
    parse_amount "no digits here" = .ok (none, none) := by
  refine ⟨by decide, by decide, by norm_num [PyFloat.toRat], by decide,
          by norm_num [PyFloat.toRat], by decide⟩

/-! ## Claim C6 -/

/-- C6: each summary field is the comma-stripped decimal of the numeric
group of the first case-insensitive match of
`<label>[^$]*\$?([\d,]+\.?\d*)`, absent exactly when there is no match
or the numeric parse fails; on
`"Opening Balance (Jan 1, 2024) $9,000.00"` the opening balance is
`9000.00`. -/
theorem C6_theorem :
    (∀ text, extract_summary text =
       ⟨summaryField "Opening Balance" text, summaryField "Closing Balance" text,
        summaryField "Total Credits" text, summaryField "Total Debits" text⟩) ∧
    (∀ label text, summaryField label text = none ↔
       searchLabelNum (lowerStr label).data text.data = none ∨
       ∃ g, searchLabelNum (lowerStr label).data text.data = some g ∧
         pyFloatDec ⟨stripCommasL g⟩ = none) ∧
    (∀ label text v, summaryField label text = some v ↔
       ∃ g, searchLabelNum (lowerStr label).data text.data = some g ∧
         pyFloatDec ⟨stripCommasL g⟩ = some v) ∧
    extract_summary "Opening Balance (Jan 1, 2024) $9,000.00" =
      ⟨some ⟨900000, 2⟩, none, none, none⟩ ∧
    (PyFloat.mk 900000 2).toRat = 9000 := by
  refine ⟨fun text => rfl, fun label text => ?_, fun label text v => ?_,
          by decide, by norm_num [PyFloat.toRat]⟩
  · rw [summaryField]
    cases hs : searchLabelNum (lowerStr label).data text.data with
    | none => simp
    | some g => simp [hs]
  · rw [summaryField]
    cases hs : searchLabelNum (lowerStr label).data text.data with
    | none => simp
    | some g => simp [hs]

/-! ## Claim C7 -/

/-- C7 (counterexample): on a matching text, a normalizer that throws
only for the second captured date leaves the period with the first
endpoint populated and the second absent — not with both endpoints
absent as the claim states. -/
theorem C7_counterexample :
    searchDateRange periodText.data = some ("January 1, 2024", "January 31, 2024") ∧
    badNorm "January 31, 2024" = .error () ∧
    extract_statement_period_with badNorm periodText = (some "2024-01-01", none) ∧
    ((some "2024-01-01", none) : Option String × Option String) ≠ (none, none) := by
  refine ⟨by decide, by decide, by decide, by decide⟩

/-- C7 (amended): if normalization throws for the FIRST captured date,
both endpoints are absent; if it throws only for the second, the `from`
endpoint keeps its normalized value while `to` stays absent (the
assignment to `from` precedes the exception); and with the repository's
`normalize_date`, which never throws, a pattern match populates both
endpoints and a failed match leaves both absent. -/
theorem C7_theorem :
    (∀ (norm : String → Except Unit String) (text : String) g1 g2 e,
       searchDateRange text.data = some (g1, g2) → norm g1 = .error e →
       extract_statement_period_with norm text = (none, none)) ∧
    (∀ (norm : String → Except Unit String) (text : String) g1 g2 d1 e,
       searchDateRange text.data = some (g1, g2) → norm g1 = .ok d1 →
       norm g2 = .error e →
       extract_statement_period_with norm text = (some d1, none)) ∧
    (∀ text : String, extract_statement_period text =
       match searchDateRange text.data with
       | none => (none, none)
       | some (g1, g2) => (some (normalize_date g1), some (normalize_date g2))) := by
  refine ⟨fun norm text g1 g2 e hs hn => ?_, fun norm text g1 g2 d1 e hs h1 h2 => ?_,
          fun text => ?_⟩
  · rw [extract_statement_period_with, hs]
    simp [hn]
  · rw [extract_statement_period_with, hs]
    simp [h1, h2]
  · rw [extract_statement_period, extract_statement_period_with]

/-- C7 (witness): the throw-on-first-date branch instantiated on the
concrete period text. -/
theorem C7_witness :
    extract_statement_period_with (fun _ => .error ()) periodText = (none, none) :=
  C7_theorem.1 (fun _ => .error ()) periodText "January 1, 2024" "January 31, 2024" ()
    (by decide) rfl

/-! ## Claim C8 -/

/-- C8 (counterexample): the third account-number pattern has no colon,
so the text `"Acct#: ***1234"` (which matches none of the other labels)
yields an absent account number, not `"***1234"`. -/
theorem C8_counterexample : extract_account_number "Acct#: ***1234" = none := by decide

/-- C8 (amended): the extracted account number is the first match, in
priority order, of `Account Number:<ws>*<mask><digits>`,
`Account No:<ws>*<mask><digits>`, `Acct#<ws>*<mask><digits>`
(case-insensitive; the third label has NO colon), returned verbatim and
absent when none match; `"Acct# ***1234"` yields `"***1234"` while
`"Acct#: ***1234"` yields nothing. -/
theorem C8_theorem :
    (∀ (text : String) g, searchAcctPat "account number:".data text.data = some g →
       extract_account_number text = some ⟨g⟩) ∧
    (∀ text : String, searchAcctPat "account number:".data text.data = none →
       searchAcctPat "account no:".data text.data = none →
       extract_account_number text =
         (searchAcctPat "acct#".data text.data).map fun g => (⟨g⟩ : String)) ∧
    extract_account_number "Acct# ***1234" = some "***1234" ∧
    extract_account_number "Account No: ***77" = some "***77" ∧
    extract_account_number "acct# ***5 then Account Number: ***6" = some "***6" := by
  refine ⟨fun text g h => ?_, fun text h1 h2 => ?_, by decide, by decide, by decide⟩
  · rw [extract_account_number, h]
  · rw [extract_account_number, h1, h2]

/-- C8 (witness): the first pattern instantiated on a concrete text. -/
theorem C8_witness :
    extract_account_number "x Account Number: ***42" = some ⟨"***42".data⟩ :=
  C8_theorem.1 "x Account Number: ***42" "***42".data (by decide)

/-! ## Claim C9 -/

/-- C9: for a well-formed encrypted PDF (decode and read succeed, the
reader reports encryption) and an incorrect password (`reader.decrypt`
falsy), `decrypt_pdf` returns the structured incorrect-password failure
— flagged `is_encrypted := true` with the incorrect-password message —
and no exception even reaches the outer handler. -/
theorem C9_theorem (env : DecryptEnv) (hb : env.b64decode = .ok ())
    (hr : env.readPdf = .ok ()) (he : env.is_encrypted = true)
    (hd : env.decryptOk = .ok false) :
    decrypt_pdf env = incorrectPasswordResult ∧
    incorrectPasswordResult.success = false ∧
    incorrectPasswordResult.error =
      some "Incorrect password. Please check and try again." ∧
    incorrectPasswordResult.is_encrypted = some true ∧
    decryptInner env = .ok incorrectPasswordResult := by
  have hinner : decryptInner env = .ok incorrectPasswordResult := by
    rw [decryptInner, hr, he, hd]
    simp
  refine ⟨?_, rfl, rfl, rfl, hinner⟩
  rw [decrypt_pdf, hb, decryptMid, hinner]

/-- C9 (witness): the theorem instantiated on the concrete
wrong-password environment. -/
theorem C9_witness :
    decrypt_pdf wrongPwEnv = incorrectPasswordResult ∧
    incorrectPasswordResult.success = false ∧
    incorrectPasswordResult.error =
      some "Incorrect password. Please check and try again." ∧
    incorrectPasswordResult.is_encrypted = some true ∧
    decryptInner wrongPwEnv = .ok incorrectPasswordResult :=
  C9_theorem wrongPwEnv rfl rfl rfl rfl

/-! ## Sanity checks

Concrete evaluations of the embedded functions, kept as regression
checks on the embedding. -/

example : normalize_date "January 5, 2024" = "2024-01-05" := by decide
example : normalize_date "Q1 2024" = "Q1 2024" := by decide
example : normalize_date "Q1, 2024" = "Q1 2024" := by decide
example : normalize_date "Jan 15 2024" = "2024-01-15" := by decide
example : normalize_date "1/31/2024" = "2024-01-31" := by decide
example : normalize_date "February 30, 2024" = "February 30 2024" := by decide
example : normalize_date "February 29, 2024" = "2024-02-29" := by decide
example : normalize_date "" = "" := by decide
example : extract_account_number "Acct#: ***1234" = none := by decide
example : extract_account_number "Acct# ***1234" = some "***1234" := by decide
example : extract_account_number "see Account Number: ***9988 ok" = some "***9988" := by decide
example : extract_account_holder "Account Holder: Jane Q Public\n" = some "Jane Q Public" := by decide
example : extract_bank_name "Wells Fargo Statement\nmore" = some "WELLS FARGO" := by decide
example : extract_bank_name "Acme Bank\nx" = some "Acme" := by decide
example : extract_bank_name "  \n " = none := by decide
example :
    searchDateRange "January 1, 2024 - January 31, 2024".data =
      some ("January 1, 2024", "January 31, 2024") := by decide
example :
    extract_statement_period "Period: January 1, 2024 - January 31, 2024 x" =
      (some "2024-01-01", some "2024-01-31") := by decide
example : extract_statement_period "no dates here" = (none, none) := by decide
example :
    extract_summary "Opening Balance (Jan 1, 2024) $9,000.00" =
      ⟨some ⟨900000, 2⟩, none, none, none⟩ := by decide
example : summaryField "Opening Balance" "Opening Balance 123" = some ⟨3, 0⟩ := by decide
example : parse_amount "-$89.99" = .ok (some ⟨-8999, 2⟩, some "debit") := by decide
example : parse_amount "$1,000.00" = .ok (some ⟨100000, 2⟩, some "credit") := by decide
example : parse_amount "," = .error .valueError := by decide
example : parse_amount "no digits" = .ok (none, none) := by decide
example : parse_balance "$2,500.75" = .ok (some ⟨250075, 2⟩) := by decide
example : (PyFloat.mk (-8999) 2).toRat = -89.99 := by norm_num [PyFloat.toRat]
example :
    parse_transaction_table
      [[some "Date", some "Description", some "Amount", some "Balance"],
       [some "", some "", some "", some ""]] = .ok [] := by decide
example :
    parse_transaction_table
      [[some "Date", some "Description", some "Amount", some "Balance"],
       [some "Jan 5 2024", some "Coffee", some "-$4.50", some "$995.50"]] =
    .ok [⟨some "2024-01-05", some "Coffee", some ⟨-450, 2⟩, some ⟨99550, 2⟩, some "debit"⟩] := by
  decide
example : qualifies [[some "Transaction Date", some "Details"], [some "x", some "y"]] = false := by
  decide
example : qualifies [[some "Date", some "Details"], [some "x", some "y"]] = true := by decide
example :
    decrypt_pdf ⟨.ok (), .ok (), true, .ok false, .ok (), "b", 3⟩ =
      incorrectPasswordResult := by decide
example :
    decrypt_pdf ⟨.ok (), .ok (), true, .ok true, .ok (), "b", 3⟩ =
      ⟨true, none, some true, some "b", some 3⟩ := by decide
